import Mathlib

/-!
Shallow embedding of the session-lifecycle and bot-control core of the
POCKET-OPTION-BOT browser client (frontend `App.js`).

Part 1 models the `AuthProvider` React context (token / user / loading
state, the `verifyToken` effect that re-runs on every token change, and
the `login` / `logout` operations), the `ProtectedRoute` gate, and an
event-driven small-step system in which verification requests issued by
the effect stay in flight until an environment-chosen resolution event.

Part 2 models the `Dashboard` component: `fetchData` (the sequential
accounts / strategies / history load with its default-selection step),
`handleStartBot`, `handleStopBot` and `handleChargingMode`, each as a
pure function from the pre-state and the network outcomes to the
post-state, the list of network requests actually issued, and the
`setTimeout` delay armed (if any).
-/

namespace PocketOptionBot

/-- Response of `GET /users/me`, as consumed by `verifyToken`. -/
structure UserProfile where
  id : Nat
  username : String
  email : String
deriving DecidableEq, Repr

/-- A broker account record, fields as on the wire. -/
structure Account where
  id : Nat
  account_name : String
  username : String
  password : String
  is_demo : Bool
  created_at : String
deriving DecidableEq, Repr

/-- A strategy record, fields as on the wire. -/
structure Strategy where
  id : Nat
  name : String
  rsi_upper_threshold : Nat
  rsi_lower_threshold : Nat
  trade_amount : Nat
  expiry_time : Nat
deriving DecidableEq, Repr

/-- A trade-history record, fields as on the wire. -/
structure TradeRecord where
  id : Nat
  asset : String
  signal_type : String
  amount : Nat
  expiry_time : Nat
  result : Option String
  created_at : String
deriving DecidableEq, Repr

/-- The `AuthProvider` component state: the `token` and `user` React
state cells, the `loading` flag, and the value persisted under the
`localStorage` key `token` (`storage`). -/
structure AuthState where
  token : Option String
  user : Option UserProfile
  storage : Option String
  loading : Bool
deriving DecidableEq, Repr

/-- Outcome of a `GET /users/me` verification request. -/
inductive VerifyResult where
  | success (u : UserProfile)
  | failure
deriving DecidableEq, Repr

/-- Resolution handler of the `verifyToken` effect body: on success
`setUser(response.data)`; on any failure `setToken(null)` and
`localStorage.removeItem` — the `user` cell is not touched in the
catch; the `finally` runs `setLoading(false)` in both cases. -/
def resolveVerify (s : AuthState) (r : VerifyResult) : AuthState :=
  match r with
  | .success u => { s with user := some u, loading := false }
  | .failure => { s with token := none, storage := none, loading := false }

/-- `login(newToken)`: `setToken(newToken)` and persist it.  Neither
`user` nor `loading` is touched. -/
def login (s : AuthState) (t : String) : AuthState :=
  { s with token := some t, storage := some t }

/-- `logout()`: `setToken(null)`, `setUser(null)`, remove persisted
token. -/
def logout (s : AuthState) : AuthState :=
  { s with token := none, user := none, storage := none }

/-- The tri-state decision of the route gate. -/
inductive GateDecision where
  | pending
  | denied
  | granted
deriving DecidableEq, Repr

/-- `ProtectedRoute`: renders the loading indicator while `loading`,
redirects to `/login` when there is no token, and otherwise renders the
wrapped children.  It consults only `loading` and `token`. -/
def ProtectedRoute (s : AuthState) : GateDecision :=
  if s.loading then .pending
  else if s.token = none then .denied
  else .granted

/-- Whole-system state: the provider state plus the tokens of the
verification requests currently in flight (in issue order).  The
`verifyToken` effect registers no cleanup, so a request issued under a
superseded token stays in flight. -/
structure SysState where
  auth : AuthState
  pending : List String
deriving DecidableEq, Repr

/-- Events the environment can deliver: a login submission, a logout
click, or the resolution of the `i`-th in-flight verification. -/
inductive Event where
  | login (t : String)
  | logout
  | resolve (i : Nat) (r : VerifyResult)
deriving DecidableEq, Repr

/-- Application start: `token` is read from `localStorage`, `loading`
starts `true`, and the mount run of the `verifyToken` effect either
issues a verification for the stored token (leaving `loading` `true`
until its `finally`) or, with no token, immediately sets `loading`
`false` without any request. -/
def initSys (stored : Option String) : SysState :=
  match stored with
  | some t => ⟨⟨some t, none, some t, true⟩, [t]⟩
  | none => ⟨⟨none, none, none, false⟩, []⟩

/-- One event step.  `login t` runs the provider's `login` and, because
the token value changed, re-runs the effect, which issues a fresh
verification for `t` while the old requests stay in flight.  `logout`
clears token, user and storage; the effect re-run on the now-absent
token only sets `loading` `false`.  `resolve i r` applies the
resolution handler; the handler does not inspect which token the
request was issued under. -/
def step (σ : SysState) (e : Event) : Option SysState :=
  match e with
  | .login t => some ⟨login σ.auth t, σ.pending ++ [t]⟩
  | .logout => some ⟨{ logout σ.auth with loading := false }, σ.pending⟩
  | .resolve i r =>
      if i < σ.pending.length then
        some ⟨resolveVerify σ.auth r, σ.pending.eraseIdx i⟩
      else none

/-- Run a list of events from a state. -/
def runEvents (σ : SysState) : List Event → Option SysState
  | [] => some σ
  | e :: es =>
      match step σ e with
      | some σ2 => runEvents σ2 es
      | none => none

/-- The spec's `Session.status` values. -/
inductive SessionStatus where
  | unverified
  | verifying
  | verified
  | invalid
deriving DecidableEq, Repr

/-- Modelled from the spec: the code stores no `status` field, so the
Session.status of spec §3/§4.1 is derived from the provider state —
`Verifying` while the mount verification is unresolved or a
verification for the current token value is in flight, `Verified` when a token
and a user profile are both present, `Unverified` for a token never
submitted for verification, and `Invalid` for the settled token-less
state (the state verification failure leaves behind; a fresh session
with no stored token is indistinguishable in the provider state and
both deny access). -/
def sessionStatus (σ : SysState) : SessionStatus :=
  if σ.auth.loading then
    if σ.auth.token.isSome then .verifying else .unverified
  else
    match σ.auth.token with
    | some t =>
        if t ∈ σ.pending then .verifying
        else if σ.auth.user.isSome then .verified
        else .unverified
    | none => .invalid

/-- A network request the `Dashboard` handlers can issue, with the
request payload where the handler builds one. -/
inductive NetReq where
  | accountsGet
  | strategiesGet
  | historyGet
  | simulate (account_id : Nat) (strategy_id : Nat) (asset : String)
      (charging_mode : Bool)
deriving DecidableEq, BEq, Repr

/-- The `Dashboard` component state cells. -/
structure DashState where
  accounts : List Account
  strategies : List Strategy
  selectedAccount : Option Account
  selectedStrategy : Option Strategy
  tradingMode : String
  isLoading : Bool
  error : String
  chartSymbol : String
  tradingHistory : List TradeRecord
  botRunning : Bool
  signalSource : String
deriving DecidableEq, Repr

/-- Result of a handler run: the post-state, the network requests it
actually issued (in order), and the `setTimeout` delay it armed in
milliseconds, when it armed one. -/
structure HandlerResult where
  state : DashState
  issued : List NetReq
  timer : Option Nat
deriving DecidableEq, Repr

/-- Result of the `fetchData` effect: post-state and issued requests. -/
structure FetchResult where
  state : DashState
  issued : List NetReq
deriving DecidableEq, Repr

/-- `Dashboard.fetchData`: inside one `try`, sequentially await the
accounts, strategies and history GETs, applying each `set...` as soon
as its own await returns; after all three, set default selections to
the first element of each non-empty fetched list; one `catch` sets the
dashboard error; `finally` clears `isLoading`.  A failed await skips
the rest of the `try` (later requests are never issued). -/
def fetchData (s : DashState)
    (accR : Except Unit (List Account))
    (strR : Except Unit (List Strategy))
    (histR : Except Unit (List TradeRecord)) : FetchResult :=
  let s0 := { s with isLoading := true }
  match accR with
  | .error _ =>
      ⟨{ s0 with
          error := "Failed to load data. Please try again later.",
          isLoading := false }, [.accountsGet]⟩
  | .ok accs =>
      let s1 := { s0 with accounts := accs }
      match strR with
      | .error _ =>
          ⟨{ s1 with
              error := "Failed to load data. Please try again later.",
              isLoading := false }, [.accountsGet, .strategiesGet]⟩
      | .ok strats =>
          let s2 := { s1 with strategies := strats }
          match histR with
          | .error _ =>
              ⟨{ s2 with
                  error := "Failed to load data. Please try again later.",
                  isLoading := false },
               [.accountsGet, .strategiesGet, .historyGet]⟩
          | .ok hist =>
              let s3 := { s2 with tradingHistory := hist }
              let s4 := match accs with
                | a :: _ => { s3 with selectedAccount := some a }
                | [] => s3
              let s5 := match strats with
                | st :: _ => { s4 with selectedStrategy := some st }
                | [] => s4
              ⟨{ s5 with isLoading := false },
               [.accountsGet, .strategiesGet, .historyGet]⟩

/-- `Dashboard.handleStartBot`: guard — if either selection is absent,
set the validation error and return with no other state change and no
request.  Otherwise `setBotRunning(true)`, POST the simulation trigger;
on its success GET the history and replace the cache (the same `catch`
covers a history failure); on any failure set the trade error; the
`finally` arms `setTimeout(() => setBotRunning(false), 5000)` in every
post-guard outcome. -/
def handleStartBot (s : DashState) (trig : Except Unit Unit)
    (histR : Except Unit (List TradeRecord)) : HandlerResult :=
  match s.selectedAccount, s.selectedStrategy with
  | some a, some st =>
      let s1 := { s with botRunning := true }
      match trig with
      | .error _ =>
          ⟨{ s1 with error := "Failed to execute trade. Please try again." },
           [.simulate a.id st.id s.chartSymbol false], some 5000⟩
      | .ok _ =>
          match histR with
          | .ok h =>
              ⟨{ s1 with tradingHistory := h },
               [.simulate a.id st.id s.chartSymbol false, .historyGet],
               some 5000⟩
          | .error _ =>
              ⟨{ s1 with error := "Failed to execute trade. Please try again." },
               [.simulate a.id st.id s.chartSymbol false, .historyGet],
               some 5000⟩
  | _, _ =>
      ⟨{ s with error := "Please select an account and strategy first." },
       [], none⟩

/-- `Dashboard.handleStopBot`: `setBotRunning(false)`, nothing else. -/
def handleStopBot (s : DashState) : DashState :=
  { s with botRunning := false }

/-- `Dashboard.handleChargingMode`: same guard as `handleStartBot`;
`setBotRunning(true)`; POST the trigger with `charging_mode: true`; on
success GET the history and replace the cache; on any failure set the
charging error.  There is no `finally` and no timer is ever armed. -/
def handleChargingMode (s : DashState) (trig : Except Unit Unit)
    (histR : Except Unit (List TradeRecord)) : HandlerResult :=
  match s.selectedAccount, s.selectedStrategy with
  | some a, some st =>
      let s1 := { s with botRunning := true }
      match trig with
      | .error _ =>
          ⟨{ s1 with
              error := "Failed to activate charging mode. Please try again." },
           [.simulate a.id st.id s.chartSymbol true], none⟩
      | .ok _ =>
          match histR with
          | .ok h =>
              ⟨{ s1 with tradingHistory := h },
               [.simulate a.id st.id s.chartSymbol true, .historyGet], none⟩
          | .error _ =>
              ⟨{ s1 with
                  error := "Failed to activate charging mode. Please try again." },
               [.simulate a.id st.id s.chartSymbol true, .historyGet], none⟩
  | _, _ =>
      ⟨{ s with error := "Please select an account and strategy first." },
       [], none⟩

/-- The `setTimeout` callback armed by `handleStartBot`:
`setBotRunning(false)`. -/
def timerFire (s : DashState) : DashState :=
  { s with botRunning := false }

/-! Concrete fixtures used by counterexamples and witnesses. -/

/-- A user profile fixture. -/
def uA : UserProfile := ⟨1, "alice", "alice@example.com"⟩

/-- A second user profile fixture. -/
def uB : UserProfile := ⟨2, "bob", "bob@example.com"⟩

/-- An account fixture. -/
def acctA : Account := ⟨1, "Main", "alice", "pw", true, "2024-01-01"⟩

/-- A second, distinct account fixture. -/
def acctB : Account := ⟨2, "Alt", "alice", "pw", false, "2024-01-02"⟩

/-- A strategy fixture. -/
def stratA : Strategy := ⟨1, "RSI", 70, 30, 10, 60⟩

/-- A trade-record fixture. -/
def recA : TradeRecord := ⟨1, "EURUSD", "CALL", 10, 60, some "WIN", "2024-01-03"⟩

/-- A freshly mounted `Dashboard` state: empty collections, no
selections, the initial cell values of the component. -/
def dashBase : DashState :=
  ⟨[], [], none, none, "demo", false, "", "EURUSD", [], false, "built-in"⟩

/-- A dashboard state with loaded collections and both selections set. -/
def dashReady : DashState :=
  { dashBase with
      accounts := [acctA]
      strategies := [stratA]
      selectedAccount := some acctA
      selectedStrategy := some stratA }

/-- A dashboard state in which the user has already selected `acctB`. -/
def dashSel : DashState :=
  { dashBase with selectedAccount := some acctB }

/-- A system state with a current token and two verification requests
in flight. -/
def exSys : SysState := ⟨⟨some "t2", none, some "t2", false⟩, ["t1", "t2"]⟩

/-- Claim C1, counterexample: issue verifications under token `t1` and
then `t2`; let `t2`'s request resolve first with success, establishing
the Verified state for `t2`; when the superseded `t1` request then
resolves (as a failure), its resolution is NOT discarded — it clears
the current token and storage, destroying the session state
established under `t2`. -/
theorem C1_counterexample :
    (runEvents (initSys none)
        [.login "t1", .login "t2", .resolve 1 (.success uB)]).map
        (fun σ => (sessionStatus σ, σ.auth.token, σ.auth.user))
      = some (.verified, some "t2", some uB) ∧
    (runEvents (initSys none)
        [.login "t1", .login "t2", .resolve 1 (.success uB),
         .resolve 0 .failure]).map
        (fun σ => (σ.auth.token, σ.auth.storage, sessionStatus σ))
      = some (none, none, .invalid) := by
  constructor <;> decide

/-- Claim C1 as amended: in-flight verification requests carry no
usable token tag — the resolution handler applies its effect
unconditionally, and the post-state is the same whichever pending
request (current or superseded) resolved: a stale success replaces the
user profile and a stale failure clears the current token and
storage. -/
theorem C1_resolution_ignores_issuing_token (σ : SysState) (i j : Nat)
    (r : VerifyResult) (hi : i < σ.pending.length)
    (hj : j < σ.pending.length) :
    step σ (.resolve i r) = some ⟨resolveVerify σ.auth r, σ.pending.eraseIdx i⟩ ∧
    (step σ (.resolve i r)).map SysState.auth
      = (step σ (.resolve j r)).map SysState.auth := by
  simp [step, hi, hj]

/-- Witness for C1's amended theorem at a concrete two-request state. -/
theorem C1_resolution_ignores_issuing_token_witness :
    0 < exSys.pending.length ∧ 1 < exSys.pending.length ∧
    step exSys (.resolve 0 .failure)
      = some ⟨resolveVerify exSys.auth .failure, exSys.pending.eraseIdx 0⟩ :=
  ⟨by decide, by decide,
    (C1_resolution_ignores_issuing_token exSys 0 1 .failure (by decide)
      (by decide)).1⟩

/-- Claim C2: whenever a verification resolves as a failure (expired,
invalid or network alike — the code has a single catch), the handled
state holds no token, the persisted token is removed from local
storage, `loading` is cleared (the session is not left at Verifying),
and the derived session status is Invalid, whatever requests remain
pending. -/
theorem C2_verify_failure_clears_session (s : AuthState) (p : List String) :
    (resolveVerify s .failure).token = none ∧
    (resolveVerify s .failure).storage = none ∧
    (resolveVerify s .failure).loading = false ∧
    sessionStatus ⟨resolveVerify s .failure, p⟩ = .invalid := by
  simp [resolveVerify, sessionStatus]

/-- Claim C4, counterexample: right after a login from a settled
unverified state the verification for the new token is in flight, so
the derived status is Verifying — yet `ProtectedRoute` reports granted
(it consults only `loading`, which the post-mount effect left `false`,
and the token), not pending as the claim requires. -/
theorem C4_counterexample :
    (runEvents (initSys none) [.login "t1"]).map
        (fun σ => (sessionStatus σ, ProtectedRoute σ.auth))
      = some (.verifying, .granted) ∧
    GateDecision.granted ≠ GateDecision.pending := by
  constructor <;> decide

/-- Claim C4 as amended: `ProtectedRoute` derives its decision from
`loading` and `token` alone — pending exactly while the initial mount
verification is unresolved, denied exactly when settled with no token,
and granted exactly when settled with a token present, even while a
post-login verification is still in flight or before the user profile
is populated. -/
theorem C4_gate_loading_token_only (s : AuthState) :
    (ProtectedRoute s = .pending ↔ s.loading = true) ∧
    (ProtectedRoute s = .denied ↔ (s.loading = false ∧ s.token = none)) ∧
    (ProtectedRoute s = .granted ↔ (s.loading = false ∧ s.token ≠ none)) := by
  rcases s with ⟨tk, u, st, l⟩
  cases l <;> cases tk <;> simp [ProtectedRoute]

/-- Claim C9, counterexample: verify successfully under `t1` (user
profile populated), log in with a new token `t2`, and let `t2`'s
verification fail — the failure handler clears the token but not the
user cell, reaching a state with the user profile present while the
token is absent and the status is Invalid, which the claim says is
unreachable. -/
theorem C9_counterexample :
    (runEvents (initSys none)
        [.login "t1", .resolve 0 (.success uA), .login "t2",
         .resolve 0 .failure]).map
        (fun σ => (σ.auth.user, σ.auth.token, sessionStatus σ))
      = some (some uA, none, .invalid) := by
  decide

/-- Claim C9 as amended: verification success populates the user and
logout clears both user and token, but verification failure clears
token and storage while leaving the user profile unchanged — so the
invariant (user present iff Verified) fails at reachable states where
a re-verification fails after a verified session. -/
theorem C9_failure_keeps_stale_user (s : AuthState) (u : UserProfile) :
    (resolveVerify s .failure).user = s.user ∧
    (resolveVerify s .failure).token = none ∧
    (resolveVerify s (.success u)).user = some u ∧
    (logout s).user = none ∧ (logout s).token = none ∧
    (logout s).storage = none := by
  simp [resolveVerify, logout]

/-- Claim C3, counterexample: with both selections set, a failed
trigger request resolves without the history re-fetch ever being
issued — the `historyGet` count in the requests issued by that
resolution is 0, not the 1 the claim requires on failure as well. -/
theorem C3_counterexample :
    dashReady.selectedAccount = some acctA ∧
    dashReady.selectedStrategy = some stratA ∧
    (handleStartBot dashReady (.error ()) (.ok [recA])).issued.count
        .historyGet = 0 := by
  decide

/-- Claim C3 as amended: after a trade-trigger resolution that passed
the precondition, `botRunning` is true (the 5000 ms reset timer of the
plain start path has not yet fired), and the history re-fetch is
issued exactly once when the trigger succeeds and not at all when it
fails, on both the start and the charging path. -/
theorem C3_refetch_only_on_success (s : DashState) (a : Account)
    (st : Strategy) (trig : Except Unit Unit)
    (histR : Except Unit (List TradeRecord))
    (ha : s.selectedAccount = some a) (hs : s.selectedStrategy = some st) :
    (handleStartBot s trig histR).state.botRunning = true ∧
    (handleChargingMode s trig histR).state.botRunning = true ∧
    (handleStartBot s trig histR).issued.count .historyGet
      = (match trig with | .ok _ => 1 | .error _ => 0) ∧
    (handleChargingMode s trig histR).issued.count .historyGet
      = (match trig with | .ok _ => 1 | .error _ => 0) := by
  cases trig <;> cases histR <;>
    simp [handleStartBot, handleChargingMode, ha, hs, List.count_cons] <;>
    exact ⟨rfl, rfl⟩

/-- Witness for C3's amended theorem at a concrete ready state. -/
theorem C3_refetch_only_on_success_witness :
    dashReady.selectedAccount = some acctA ∧
    dashReady.selectedStrategy = some stratA ∧
    (handleStartBot dashReady (.ok ()) (.ok [recA])).state.botRunning
      = true :=
  ⟨rfl, rfl,
    (C3_refetch_only_on_success dashReady acctA stratA (.ok ())
      (.ok [recA]) rfl rfl).1⟩

/-- Claim C5: when either selection is absent, `handleStartBot` and
`handleChargingMode` only set the dashboard validation error — the
whole rest of the state (in particular `botRunning`) is unchanged, no
network request is issued, and no timer is armed. -/
theorem C5_guard_rejects (s : DashState) (trig : Except Unit Unit)
    (histR : Except Unit (List TradeRecord))
    (h : s.selectedAccount = none ∨ s.selectedStrategy = none) :
    handleStartBot s trig histR
      = ⟨{ s with error := "Please select an account and strategy first." },
         [], none⟩ ∧
    handleChargingMode s trig histR
      = ⟨{ s with error := "Please select an account and strategy first." },
         [], none⟩ := by
  rcases h with h | h <;>
    rcases hA : s.selectedAccount with _ | a <;>
    rcases hS : s.selectedStrategy with _ | st <;>
    simp_all [handleStartBot, handleChargingMode]

/-- Witness for C5 at the fresh dashboard state with no selections. -/
theorem C5_guard_rejects_witness :
    (dashBase.selectedAccount = none ∨ dashBase.selectedStrategy = none) ∧
    handleStartBot dashBase (.ok ()) (.ok [])
      = ⟨{ dashBase with
            error := "Please select an account and strategy first." },
         [], none⟩ :=
  ⟨Or.inl rfl, (C5_guard_rejects dashBase (.ok ()) (.ok []) (Or.inl rfl)).1⟩

/-- Claim C6, counterexample: when the accounts fetch fails, only the
accounts request was issued — the strategies and history requests are
never issued, refuting the claimed independence of the three loads. -/
theorem C6_counterexample :
    (fetchData dashReady (.error ()) (.ok [stratA]) (.ok [recA])).issued
      = [.accountsGet] ∧
    (fetchData dashReady (.error ()) (.ok [stratA]) (.ok [recA])).issued.count
        .strategiesGet = 0 ∧
    (fetchData dashReady (.error ()) (.ok [stratA]) (.ok [recA])).issued.count
        .historyGet = 0 := by
  decide

/-- Claim C6 as amended: the three loads form one sequential chain in
a single try block — a failure of the accounts load prevents the
strategies and history requests from being issued and leaves all three
collections untouched with the dashboard error set; a failure of the
strategies load prevents the history request, after the accounts
collection has already been replaced, leaving strategies and history
untouched. -/
theorem C6_sequential_loads (s : DashState)
    (strR : Except Unit (List Strategy))
    (histR : Except Unit (List TradeRecord)) (accs : List Account)
    (histR2 : Except Unit (List TradeRecord)) :
    ((fetchData s (.error ()) strR histR).issued = [.accountsGet] ∧
      (fetchData s (.error ()) strR histR).state.accounts = s.accounts ∧
      (fetchData s (.error ()) strR histR).state.strategies = s.strategies ∧
      (fetchData s (.error ()) strR histR).state.tradingHistory
        = s.tradingHistory ∧
      (fetchData s (.error ()) strR histR).state.error
        = "Failed to load data. Please try again later.") ∧
    ((fetchData s (.ok accs) (.error ()) histR2).issued
        = [.accountsGet, .strategiesGet] ∧
      (fetchData s (.ok accs) (.error ()) histR2).state.accounts = accs ∧
      (fetchData s (.ok accs) (.error ()) histR2).state.strategies
        = s.strategies ∧
      (fetchData s (.ok accs) (.error ()) histR2).state.tradingHistory
        = s.tradingHistory) := by
  simp [fetchData]

/-- Claim C7, counterexample: with the user's selection already on
`acctB`, a successful load whose accounts list starts with `acctA`
overwrites the selection with `acctA` — the default-selection step
does not leave a non-none `selectedAccount` unchanged. -/
theorem C7_counterexample :
    dashSel.selectedAccount = some acctB ∧
    (fetchData dashSel (.ok [acctA]) (.ok []) (.ok [])).state.selectedAccount
      = some acctA ∧
    acctA ≠ acctB := by
  decide

/-- Claim C7 as amended: after a fully successful load the
default-selection step unconditionally sets each selection to the
first element of the corresponding freshly loaded collection,
overwriting any prior value; a selection field is left unchanged only
when its loaded collection is empty. -/
theorem C7_defaults_overwrite (s : DashState) (accs : List Account)
    (strats : List Strategy) (hist : List TradeRecord) :
    (fetchData s (.ok accs) (.ok strats) (.ok hist)).state.selectedAccount
      = (match accs with | [] => s.selectedAccount | a :: _ => some a) ∧
    (fetchData s (.ok accs) (.ok strats) (.ok hist)).state.selectedStrategy
      = (match strats with | [] => s.selectedStrategy | st :: _ => some st)
    := by
  cases accs <;> cases strats <;> simp [fetchData]

/-- Claim C8: when the charging trigger fails, `botRunning` is (still)
true and no timer is armed — in fact the charging path never arms any
timer for any outcome — and only the explicit `handleStopBot` resets
`botRunning` to false. -/
theorem C8_charging_failure_stays (s : DashState) (a : Account)
    (st : Strategy) (histR : Except Unit (List TradeRecord))
    (ha : s.selectedAccount = some a) (hs : s.selectedStrategy = some st) :
    (handleChargingMode s (.error ()) histR).state.botRunning = true ∧
    (handleChargingMode s (.error ()) histR).timer = none ∧
    (∀ (trig : Except Unit Unit) (histR2 : Except Unit (List TradeRecord)),
      (handleChargingMode s trig histR2).timer = none) ∧
    (∀ s2 : DashState, (handleStopBot s2).botRunning = false) := by
  refine ⟨?_, ?_, ?_, fun s2 => rfl⟩
  · simp [handleChargingMode, ha, hs]
  · simp [handleChargingMode, ha, hs]
  · intro trig histR2
    cases trig <;> cases histR2 <;> simp [handleChargingMode, ha, hs]

/-- Witness for C8 at a concrete ready state with a failed trigger. -/
theorem C8_charging_failure_stays_witness :
    dashReady.selectedAccount = some acctA ∧
    dashReady.selectedStrategy = some stratA ∧
    (handleChargingMode dashReady (.error ()) (.ok [recA])).state.botRunning
      = true ∧
    (handleChargingMode dashReady (.error ()) (.ok [recA])).timer = none :=
  ⟨rfl, rfl,
    (C8_charging_failure_stays dashReady acctA stratA (.ok [recA])
      rfl rfl).1,
    (C8_charging_failure_stays dashReady acctA stratA (.ok [recA])
      rfl rfl).2.1⟩

/-- Claim C10: a start that passes the precondition sets `botRunning`
immediately, arms a fixed 5000 ms timer at every resolution (success
or failure) whose callback resets `botRunning` to false, and the
charging-mode path arms no timer for any outcome. -/
theorem C10_start_timer (s : DashState) (a : Account) (st : Strategy)
    (trig : Except Unit Unit) (histR : Except Unit (List TradeRecord))
    (ha : s.selectedAccount = some a) (hs : s.selectedStrategy = some st) :
    (handleStartBot s trig histR).state.botRunning = true ∧
    (handleStartBot s trig histR).timer = some 5000 ∧
    (timerFire (handleStartBot s trig histR).state).botRunning = false ∧
    (handleChargingMode s trig histR).timer = none := by
  cases trig <;> cases histR <;>
    simp [handleStartBot, handleChargingMode, timerFire, ha, hs]

/-- Witness for C10 at a concrete ready state. -/
theorem C10_start_timer_witness :
    dashReady.selectedAccount = some acctA ∧
    dashReady.selectedStrategy = some stratA ∧
    (handleStartBot dashReady (.error ()) (.ok [])).timer = some 5000 :=
  ⟨rfl, rfl,
    (C10_start_timer dashReady acctA stratA (.error ()) (.ok [])
      rfl rfl).2.1⟩

end PocketOptionBot
